import Mathlib

/-!
Verification of the turn-selection and relay-scheduling core of the botai
repository (multi-bot Telegram relay).  The definitions below are shallow
embeddings of the TypeScript sources:

* `checkRateLimit`  — src/utils/rateLimiter.ts
* `selectNextBot`   — services/messageQueue.ts (relay version)
* `handleWebhook`   — src/controllers/webhookController.ts
* `processMessage`  — services/messageQueue.ts (relay version)
* `sendMessage`     — src/services/telegramService.ts

Fallible external calls (Prisma, Redis, Telegram, the AI provider) are
modelled with `Except String`; randomness (`Math.random`) is modelled by an
explicit draw parameter; wall-clock instants are explicit arguments.
-/

namespace Botai

/-! ## Rate limiter (src/utils/rateLimiter.ts)

The Redis sorted set holding one bot's admission timestamps is modelled as a
list of scores.  `zremrangebyscore key 0 windowStart` removes every entry
with score in `[0, windowStart]`; `zrange key 0 0` returns the entry with
the smallest score; `zadd key now now` appends the current instant. -/

def RATE_LIMIT_WINDOW : Int := 1000

def MAX_REQUESTS_PER_WINDOW : Int := 1

structure RateLimitResult where
  allowed : Bool
  remaining : Int
  resetIn : Int
deriving DecidableEq

structure RateState where
  entries : List Int
deriving DecidableEq

/-- Smallest score in the sorted set (`zrange key 0 0`). -/
def oldestEntry (l : List Int) : Option Int :=
  l.foldl (fun acc t =>
    match acc with
    | none => some t
    | some m => some (min m t)) none

/-- Embeds `checkRateLimit`: purge entries with score in `[0, now - window]`,
deny with a computed `resetIn` when the window is full, otherwise record
`now` and admit. -/
def checkRateLimit (st : RateState) (now : Int) : RateState × RateLimitResult :=
  let windowStart := now - RATE_LIMIT_WINDOW
  let survivors := st.entries.filter (fun t => decide (t < 0 ∨ windowStart < t))
  let count : Int := survivors.length
  if MAX_REQUESTS_PER_WINDOW ≤ count then
    let resetIn :=
      match oldestEntry survivors with
      | some oldest => max 0 (RATE_LIMIT_WINDOW - (now - oldest))
      | none => RATE_LIMIT_WINDOW
    (⟨survivors⟩, ⟨false, 0, resetIn⟩)
  else
    (⟨survivors ++ [now]⟩, ⟨true, MAX_REQUESTS_PER_WINDOW - count - 1, 0⟩)

/-! ## Conversation store data model (prisma schema) -/

structure Bot where
  id : String
  token : String
  username : String
  personality : String
  groupId : String
  isActive : Bool
  createdAt : Nat
deriving DecidableEq

structure Message where
  botId : String
  groupId : String
  text : String
  timestamp : Nat
  isAiGenerated : Bool
  telegramMsgId : Option Nat
deriving DecidableEq

structure Group where
  id : String
  telegramId : String
  name : String
deriving DecidableEq

structure Store where
  bots : List Bot
  groups : List Group
  messages : List Message
deriving DecidableEq

/-- The projection of a `Bot` row that `selectNextBot` returns. -/
structure BotInfo where
  id : String
  token : String
  username : String
  personality : String
deriving DecidableEq

def Bot.toInfo (b : Bot) : BotInfo :=
  ⟨b.id, b.token, b.username, b.personality⟩

/-! ## Turn selector (selectNextBot in services/messageQueue.ts)

Prisma's `findMany(orderBy createdAt asc)` is modelled by a stable insertion
sort on `createdAt`; `findFirst(orderBy timestamp desc)` on AI messages by a
fold picking the strictly latest timestamp. -/

def insertByCreated (b : Bot) : List Bot → List Bot
  | [] => [b]
  | c :: cs => if b.createdAt ≤ c.createdAt then b :: c :: cs else c :: insertByCreated b cs

def sortByCreatedAt : List Bot → List Bot
  | [] => []
  | b :: bs => insertByCreated b (sortByCreatedAt bs)

/-- Active bots of the group keyed by its Telegram chat id, minus the
excluded bot, in registration order (the `findMany` of selectNextBot). -/
def activeBotsSorted (s : Store) (groupTelegramId excludeBotId : String) : List Bot :=
  sortByCreatedAt (s.bots.filter
    (fun b => b.groupId == groupTelegramId && b.isActive && b.id != excludeBotId))

/-- Most recent AI-generated message of the group keyed by its store uuid
(the `findFirst` of selectNextBot). -/
def findMostRecentAiMessage (s : Store) (groupUuid : String) : Option Message :=
  (s.messages.filter (fun m => m.groupId == groupUuid && m.isAiGenerated)).foldl
    (fun acc m =>
      match acc with
      | none => some m
      | some best => if best.timestamp < m.timestamp then some m else some best)
    none

/-- The two Prisma lookups selectNextBot performs, as fallible calls. -/
structure DB where
  findBots : String → String → Except String (List Bot)
  findLastAiMessage : String → Except String (Option Message)

/-- The lookups as served by a live store (the non-failing instantiation). -/
def dbOfStore (s : Store) : DB :=
  ⟨fun gt ex => .ok (activeBotsSorted s gt ex),
   fun gu => .ok (findMostRecentAiMessage s gu)⟩

/-- The index arithmetic of selectNextBot on the fetched rows: default index
0, advanced to `(lastBotIndex + 1) % length` only when the last AI author is
found among the fetched bots. -/
def selectNextCore (bots : List Bot) (lastMessage : Option Message) : Option BotInfo :=
  let nextBotIndex :=
    match lastMessage with
    | none => 0
    | some lm =>
      match bots.findIdx? (fun b : Bot => b.id == lm.botId) with
      | none => 0
      | some lastBotIndex => (lastBotIndex + 1) % bots.length
  (bots[nextBotIndex]?).map Bot.toInfo

/-- Embeds `selectNextBot`: fetch active bots (excluding the given id),
return null when none; fetch the latest AI message; pick the next index.
The surrounding try/catch converts any lookup failure into null. -/
def selectNextBot (db : DB) (groupUuid groupTelegramId excludeBotId : String) :
    Option BotInfo :=
  match db.findBots groupTelegramId excludeBotId with
  | .error _ => none
  | .ok bots =>
    if bots.isEmpty then none
    else
      match db.findLastAiMessage groupUuid with
      | .error _ => none
      | .ok lastMessage => selectNextCore bots lastMessage

/-! ## The relay chain as a transition system

`chainSpeakers` models the chained rotation of processMessage: the current
speaker's reply is persisted as the newest AI message, then selectNextBot
runs with the speaker excluded, and the chosen bot becomes the next
speaker. -/

def mkAiMessage (botId groupUuid : String) (t : Nat) : Message :=
  ⟨botId, groupUuid, "reply", t, true, some t⟩

def appendMessage (s : Store) (m : Message) : Store :=
  { s with messages := s.messages ++ [m] }

def chainSpeakers (gu gt : String) : Nat → Store → String → Nat → List String
  | 0, _, _, _ => []
  | n + 1, s, speaker, t =>
    let s1 := appendMessage s (mkAiMessage speaker gu t)
    match selectNextBot (dbOfStore s1) gu gt speaker with
    | none => []
    | some nb => nb.id :: chainSpeakers gu gt n s1 nb.id (t + 1)

/-! ## Webhook ingress (src/controllers/webhookController.ts) -/

structure Sender where
  username : Option String
  isBot : Bool
deriving DecidableEq

structure TMessage where
  messageId : Nat
  chatId : String
  chatType : String
  sender : Option Sender
  text : Option String
deriving DecidableEq

structure TUpdate where
  message : Option TMessage
deriving DecidableEq

/-- The payload handed to the delayed queue (MessageJobData). -/
structure MessageJobData where
  botToken : String
  botId : String
  groupId : String
  groupTelegramId : String
  respondingBotUsername : String
  personality : String
  replyToMsgId : Option Nat
deriving DecidableEq

/-- The context collected by handleWebhook before it touches the message
table: the receiving bot (by webhook token), the registered group (by chat
id), and the sending bot when the sender is one of our bots. -/
structure WebhookCtx where
  bot : Bot
  group : Group
  sendingBot : Option Bot
  messageId : Nat
  chatId : String
  text : String
deriving DecidableEq

/-- The early-return guards of handleWebhook.  They read only the bot and
group tables, never the message table. -/
def webhookCtx (bots : List Bot) (groups : List Group) (botToken : String)
    (u : TUpdate) : Option WebhookCtx :=
  match u.message with
  | none => none
  | some msg =>
    match msg.text with
    | none => none
    | some text =>
      if text == "" then none
      else if msg.chatType != "group" && msg.chatType != "supergroup" then none
      else
        match bots.find? (fun b : Bot => b.token == botToken) with
        | none => none
        | some bot =>
          match groups.find? (fun g : Group => g.telegramId == msg.chatId) with
          | none => none
          | some group =>
            let sendingBot :=
              match msg.sender with
              | none => none
              | some f =>
                if f.isBot then
                  match f.username with
                  | none => none
                  | some un =>
                    if un == "" then none
                    else bots.find?
                      (fun b : Bot => b.username == un && b.groupId == msg.chatId)
                else none
            some ⟨bot, group, sendingBot, msg.messageId, msg.chatId, text⟩

/-- The existence-check-then-create of handleWebhook: insert only when no
stored message carries the same (telegramMsgId, groupId) pair. -/
def dedupInsert (s : Store) (m : Message) : Store :=
  match s.messages.find?
      (fun x : Message => x.telegramMsgId == m.telegramMsgId && x.groupId == m.groupId) with
  | some _ => s
  | none => { s with messages := s.messages ++ [m] }

/-- The inbound Message row handleWebhook builds: credited to the sending
bot when the sender is one of ours, otherwise to the receiving bot. -/
def mkInboundMessage (ctx : WebhookCtx) (now : Nat) : Message :=
  ⟨(match ctx.sendingBot with | some sb => sb.id | none => ctx.bot.id),
    ctx.group.id, ctx.text, now, ctx.sendingBot.isSome, some ctx.messageId⟩

/-- Store component of handleWebhook: the dedup-insert, or no change when an
early guard returned. -/
def handleWebhookStore (s : Store) (botToken : String) (u : TUpdate) (now : Nat) : Store :=
  match webhookCtx s.bots s.groups botToken u with
  | none => s
  | some ctx => dedupInsert s (mkInboundMessage ctx now)

/-- Queue component of handleWebhook: runs the turn selector on the
post-insert store and enqueues only when the selected bot differs from the
sender and equals the receiving bot (the single-writer guard). -/
def handleWebhookJob (s : Store) (botToken : String) (u : TUpdate) (now : Nat) :
    Option MessageJobData :=
  match webhookCtx s.bots s.groups botToken u with
  | none => none
  | some ctx =>
    let s1 := dedupInsert s (mkInboundMessage ctx now)
    let senderId := match ctx.sendingBot with | some sb => sb.id | none => ""
    if ctx.sendingBot.isNone || senderId != ctx.bot.id then
      match selectNextBot (dbOfStore s1) ctx.group.id ctx.group.telegramId senderId with
      | none => none
      | some nb =>
        if nb.id != senderId && nb.id == ctx.bot.id then
          some ⟨nb.token, nb.id, ctx.group.id, ctx.chatId, nb.username, nb.personality, none⟩
        else none
    else none

/-- Embeds `handleWebhook`: resulting store and optionally enqueued job. -/
def handleWebhook (s : Store) (botToken : String) (u : TUpdate) (now : Nat) :
    Store × Option MessageJobData :=
  (handleWebhookStore s botToken u now, handleWebhookJob s botToken u now)

/-- Number of stored messages carrying a given (groupId, platform message
id) pair. -/
def countPair (s : Store) (gid : String) (mid : Nat) : Nat :=
  (s.messages.filter
    (fun m : Message => m.groupId == gid && m.telegramMsgId == some mid)).length

/-! ## Delivery handler (processMessage in services/messageQueue.ts) and
platform send (sendMessage in src/services/telegramService.ts) -/

/-- Embeds telegramService.sendMessage: the underlying platform call either
yields a message id or fails; the surrounding try/catch converts failure to
null. -/
def sendMessage (transport : Except String Nat) : Option Nat :=
  match transport with
  | .ok mid => some mid
  | .error _ => none

/-- One row of the recent-history fetch (`include: bot`). -/
structure FetchedMsg where
  msg : Message
  botUsername : String
deriving DecidableEq

structure ConversationMessage where
  botUsername : String
  text : String
  isAiGenerated : Bool
deriving DecidableEq

/-- The conversation context processMessage builds: rows reversed to
chronological order, user messages attributed to "User". -/
def buildHistory (rows : List FetchedMsg) : List ConversationMessage :=
  rows.reverse.map (fun r =>
    ⟨if r.msg.isAiGenerated then r.botUsername else "User", r.msg.text, r.msg.isAiGenerated⟩)

/-- Bull job options passed by addToQueue. -/
inductive BackoffKind
  | exponential (delay : Nat)
deriving DecidableEq

structure JobOptions where
  attempts : Nat
  backoff : BackoffKind
  removeOnComplete : Nat
  removeOnFail : Nat
deriving DecidableEq

/-- The retry configuration addToQueue attaches to every job. -/
def addToQueueOptions : JobOptions := ⟨3, .exponential 1000, 100, 50⟩

/-- The randomized delay addToQueue assigns:
`Math.floor(Math.random() * 1000) + 500`, the draw being the floored random
value. -/
def addToQueueDelay (draw : Fin 1000) : Nat := draw.val + 500

/-- The delay of the other addToQueue variant in the repository:
`Math.floor(Math.random() * 2000) + 3000`. -/
def addToQueueDelayLegacy (draw : Fin 2000) : Nat := draw.val + 3000

/-- The effectful collaborators of one processMessage execution.  Steps that
catch internally (rate-limit wait, selector lookups, platform send) cannot
surface an error; the others are `Except`-valued. -/
structure ProcEnv where
  recentFetch : Except String (List FetchedMsg)
  generate : List ConversationMessage → Except String String
  sendTransport : Except String Nat
  insertOk : Except String Unit
  db : DB
  enqueueOk : Except String Unit
  chainDraw : Fin 1000

/-- Observable outcome of one processMessage execution. -/
structure ProcOutcome where
  sentId : Option Nat
  storedReply : Bool
  selectorRan : Bool
  chained : Option (BotInfo × Nat)
deriving DecidableEq

/-- Embeds `processMessage`: fetch history, generate, send, and — only when
the send yielded a message id — persist the reply, re-run the turn selector
excluding the sender, and enqueue the chained job (no reply-target id).
Every error reaching the surrounding try/catch is re-raised. -/
def processMessage (env : ProcEnv) (jd : MessageJobData) : Except String ProcOutcome :=
  match env.recentFetch with
  | .error e => .error e
  | .ok rows =>
    match env.generate (buildHistory rows) with
    | .error e => .error e
    | .ok _responseText =>
      match sendMessage env.sendTransport with
      | none => .ok ⟨none, false, false, none⟩
      | some mid =>
        match env.insertOk with
        | .error e => .error e
        | .ok _ =>
          match selectNextBot env.db jd.groupId jd.groupTelegramId jd.botId with
          | none => .ok ⟨some mid, true, true, none⟩
          | some nb =>
            match env.enqueueOk with
            | .error e => .error e
            | .ok _ => .ok ⟨some mid, true, true, some (nb, addToQueueDelay env.chainDraw)⟩

/-! ## Concrete instances used by witnesses and counterexamples -/

def botA : Bot := ⟨"A", "ta", "a", "pa", "G", true, 0⟩

def botB : Bot := ⟨"B", "tb", "b", "pb", "G", true, 1⟩

def botC : Bot := ⟨"C", "tc", "c", "pc", "G", true, 2⟩

def groupG : Group := ⟨"g", "G", "grp"⟩

/-- Three active bots registered at times 0, 1, 2 in one group. -/
def storeABC : Store := ⟨[botA, botB, botC], [groupG], []⟩

/-- A human text message in the group chat, delivered to a bot webhook. -/
def updateHuman : TUpdate :=
  ⟨some ⟨7, "G", "group", some ⟨some "joe", false⟩, some "hi"⟩⟩

/-- A database stand-in whose every lookup fails. -/
def dbDown : DB :=
  ⟨fun _ _ => .error "connection refused", fun _ => .error "connection refused"⟩

/-- A database stand-in whose lookups succeed and select bot B. -/
def dbNext : DB := ⟨fun _ _ => .ok [botB], fun _ => .ok none⟩

def jdA : MessageJobData := ⟨"ta", "A", "g", "G", "a", "pa", none⟩

def genOk : List ConversationMessage → Except String String := fun _ => .ok "sure"

/-- Delivery where everything succeeds but the chained enqueue fails. -/
def envEnqFail : ProcEnv := ⟨.ok [], genOk, .ok 42, .ok (), dbNext, .error "enqueue down", 0⟩

/-- Delivery where the platform send fails (caught inside sendMessage). -/
def envSendFail : ProcEnv := ⟨.ok [], genOk, .error "network down", .ok (), dbNext, .ok (), 0⟩

/-- Delivery where everything succeeds, chain draw 0. -/
def envChainOk : ProcEnv := ⟨.ok [], genOk, .ok 42, .ok (), dbNext, .ok (), 0⟩

/-- Delivery where send and persist succeed but the selector's lookups
fail. -/
def envDbFail : ProcEnv := ⟨.ok [], genOk, .ok 42, .ok (), dbDown, .ok (), 0⟩

end Botai

namespace Botai

/-! ## Helper lemmas -/

lemma mem_insertByCreated {x b : Bot} {l : List Bot} :
    x ∈ insertByCreated b l ↔ x = b ∨ x ∈ l := by
  induction l with
  | nil => simp [insertByCreated]
  | cons c cs ih =>
    by_cases hle : b.createdAt ≤ c.createdAt
    · simp only [insertByCreated, if_pos hle, List.mem_cons]
    · simp only [insertByCreated, if_neg hle, List.mem_cons, ih]
      tauto

lemma pairwise_insertByCreated {b : Bot} {l : List Bot}
    (h : l.Pairwise (fun a c => a.createdAt ≤ c.createdAt)) :
    (insertByCreated b l).Pairwise (fun a c => a.createdAt ≤ c.createdAt) := by
  induction l with
  | nil => simp [insertByCreated]
  | cons c cs ih =>
    rw [List.pairwise_cons] at h
    obtain ⟨hc, hcs⟩ := h
    by_cases hle : b.createdAt ≤ c.createdAt
    · simp only [insertByCreated, if_pos hle]
      refine List.Pairwise.cons ?_ (List.Pairwise.cons hc hcs)
      intro x hx
      rcases List.mem_cons.1 hx with hx | hx
      · exact hx ▸ hle
      · exact le_trans hle (hc x hx)
    · simp only [insertByCreated, if_neg hle]
      refine List.Pairwise.cons ?_ (ih hcs)
      intro x hx
      rcases mem_insertByCreated.1 hx with hx | hx
      · exact hx ▸ le_of_not_le hle
      · exact hc x hx

lemma sorted_sortByCreatedAt (l : List Bot) :
    (sortByCreatedAt l).Pairwise (fun a c => a.createdAt ≤ c.createdAt) := by
  induction l with
  | nil => exact List.Pairwise.nil
  | cons b bs ih => exact pairwise_insertByCreated ih

lemma selectNextBot_of_findBots_error {db : DB} {gu gt ex e : String}
    (h : db.findBots gt ex = .error e) :
    selectNextBot db gu gt ex = none := by
  simp [selectNextBot, h]

lemma selectNextBot_of_lastAi_error {db : DB} {gu gt ex e : String}
    (h : db.findLastAiMessage gu = .error e) :
    selectNextBot db gu gt ex = none := by
  unfold selectNextBot
  cases hb : db.findBots gt ex with
  | error e2 => rfl
  | ok bots =>
    by_cases hemp : bots.isEmpty
    · simp [hemp]
    · simp [hemp, h]

lemma webhookCtx_finds_bot {bots : List Bot} {groups : List Group} {tok : String}
    {u : TUpdate} {ctx : WebhookCtx}
    (h : webhookCtx bots groups tok u = some ctx) :
    bots.find? (fun b : Bot => b.token == tok) = some ctx.bot := by
  unfold webhookCtx at h
  repeat' split at h
  all_goals simp_all
  all_goals rw [← h]

lemma dedupInsert_bots (s : Store) (m : Message) : (dedupInsert s m).bots = s.bots := by
  unfold dedupInsert; split <;> rfl

lemma dedupInsert_groups (s : Store) (m : Message) : (dedupInsert s m).groups = s.groups := by
  unfold dedupInsert; split <;> rfl

/-- Re-running the dedup insert with a message carrying the same
(telegramMsgId, groupId) pair changes nothing. -/
lemma dedupInsert_pair_present (s : Store) (m m2 : Message)
    (h1 : m2.telegramMsgId = m.telegramMsgId) (h2 : m2.groupId = m.groupId) :
    dedupInsert (dedupInsert s m) m2 = dedupInsert s m := by
  cases hfind : s.messages.find?
      (fun x : Message => x.telegramMsgId == m.telegramMsgId && x.groupId == m.groupId) with
  | some y =>
    have hs : dedupInsert s m = s := by unfold dedupInsert; rw [hfind]
    rw [hs]
    have hfind2 : s.messages.find?
        (fun x : Message => x.telegramMsgId == m2.telegramMsgId && x.groupId == m2.groupId) =
        some y := by rw [h1, h2]; exact hfind
    unfold dedupInsert; rw [hfind2]
  | none =>
    have hs : dedupInsert s m = { s with messages := s.messages ++ [m] } := by
      unfold dedupInsert; rw [hfind]
    rw [hs]
    have hfind2 : (s.messages ++ [m]).find?
        (fun x : Message => x.telegramMsgId == m2.telegramMsgId && x.groupId == m2.groupId) =
        some m := by
      rw [h1, h2, List.find?_append]
      rw [hfind]
      simp [List.find?]
    unfold dedupInsert
    simp only [hfind2]

/-- The dedup insert preserves the at-most-one-row-per-pair invariant. -/
lemma countPair_dedupInsert (s : Store) (m : Message) (gid : String) (mid : Nat)
    (h : countPair s gid mid ≤ 1) :
    countPair (dedupInsert s m) gid mid ≤ 1 := by
  cases hfind : s.messages.find?
      (fun x : Message => x.telegramMsgId == m.telegramMsgId && x.groupId == m.groupId) with
  | some y =>
    have hs : dedupInsert s m = s := by unfold dedupInsert; rw [hfind]
    rw [hs]; exact h
  | none =>
    have hs : dedupInsert s m = { s with messages := s.messages ++ [m] } := by
      unfold dedupInsert; rw [hfind]
    rw [hs]
    unfold countPair at h ⊢
    simp only [List.filter_append, List.length_append]
    by_cases hmatch : (m.groupId == gid && m.telegramMsgId == some mid) = true
    · have hz : s.messages.filter
          (fun x : Message => x.groupId == gid && x.telegramMsgId == some mid) = [] := by
        apply List.filter_eq_nil_iff.2
        intro x hx
        have hfx := List.find?_eq_none.1 hfind x hx
        simp only [Bool.and_eq_true, beq_iff_eq] at hfx hmatch ⊢
        intro hcon
        exact hfx ⟨by rw [hcon.2, hmatch.2], by rw [hcon.1, hmatch.1]⟩
      rw [hz]
      simp [List.filter, hmatch]
    · have hone : ([m].filter
          (fun x : Message => x.groupId == gid && x.telegramMsgId == some mid)) = [] := by
        simp [List.filter, hmatch]
      rw [hone]
      simpa using h

lemma hwStore_none {s : Store} {tok : String} {u : TUpdate}
    (h : webhookCtx s.bots s.groups tok u = none) (n : Nat) :
    handleWebhookStore s tok u n = s := by
  unfold handleWebhookStore; rw [h]

lemma hwStore_some {s : Store} {tok : String} {u : TUpdate} {ctx : WebhookCtx}
    (h : webhookCtx s.bots s.groups tok u = some ctx) (n : Nat) :
    handleWebhookStore s tok u n = dedupInsert s (mkInboundMessage ctx n) := by
  unfold handleWebhookStore; rw [h]

/-- Processing the same update twice leaves the store where the first
processing left it. -/
lemma handleWebhookStore_idem (s : Store) (tok : String) (u : TUpdate) (n n2 : Nat) :
    handleWebhookStore (handleWebhookStore s tok u n) tok u n2 =
      handleWebhookStore s tok u n := by
  cases hctx : webhookCtx s.bots s.groups tok u with
  | none =>
    rw [hwStore_none hctx n, hwStore_none hctx n2]
  | some ctx =>
    rw [hwStore_some hctx n]
    have hctx2 : webhookCtx (dedupInsert s (mkInboundMessage ctx n)).bots
        (dedupInsert s (mkInboundMessage ctx n)).groups tok u = some ctx := by
      rw [dedupInsert_bots, dedupInsert_groups]; exact hctx
    rw [hwStore_some hctx2 n2]
    exact dedupInsert_pair_present s _ _ rfl rfl

/-! ## Claim theorems -/

/-- C8: for a bot whose window holds only stale entries, two admission
requests inside one window yield exactly one immediate admission, and the
denied request's `resetIn` is non-negative, at most the window width, and
equals the time left until the oldest surviving entry leaves the window. -/
theorem c8_rate_limiter_capacity_and_reset
    (st : RateState) (t1 t2 : Int)
    (hstale : ∀ e ∈ st.entries, 0 ≤ e ∧ e ≤ t1 - 1000)
    (h0 : 0 ≤ t1) (h12 : t1 ≤ t2) (hwin : t2 < t1 + 1000) :
    (checkRateLimit st t1 = (⟨[t1]⟩, ⟨true, 0, 0⟩)) ∧
    (checkRateLimit ⟨[t1]⟩ t2 = (⟨[t1]⟩, ⟨false, 0, 1000 - (t2 - t1)⟩)) ∧
    (0 ≤ 1000 - (t2 - t1)) ∧ (1000 - (t2 - t1) ≤ 1000) := by
  have hfilter : st.entries.filter (fun t => decide (t < 0 ∨ t1 - RATE_LIMIT_WINDOW < t)) = [] := by
    apply List.filter_eq_nil_iff.2
    intro e he
    have h := hstale e he
    simp only [RATE_LIMIT_WINDOW, decide_eq_true_eq]
    omega
  have h1 : checkRateLimit st t1 = (⟨[t1]⟩, ⟨true, 0, 0⟩) := by
    simp only [checkRateLimit, hfilter]
    norm_num [MAX_REQUESTS_PER_WINDOW]
  have hfilter2 : [t1].filter (fun t => decide (t < 0 ∨ t2 - RATE_LIMIT_WINDOW < t)) = [t1] := by
    simp only [List.filter, RATE_LIMIT_WINDOW, decide_eq_true_eq]
    have : (t1 < 0 ∨ t2 - 1000 < t1) := by omega
    simp [this]
  have hmax : max 0 ((1000 : Int) - (t2 - t1)) = 1000 - (t2 - t1) :=
    max_eq_right (by omega)
  have h2 : checkRateLimit ⟨[t1]⟩ t2 =
      (⟨[t1]⟩, ⟨false, 0, 1000 - (t2 - t1)⟩) := by
    simp only [checkRateLimit, hfilter2]
    norm_num [MAX_REQUESTS_PER_WINDOW, oldestEntry, RATE_LIMIT_WINDOW, hmax]
  exact ⟨h1, h2, by omega, by omega⟩

/-- Witness for C8 at a concrete input: empty window, requests at 2000 and
2500 ms. -/
theorem c8_rate_limiter_capacity_and_reset_witness :
    ((∀ e ∈ (⟨[]⟩ : RateState).entries, 0 ≤ e ∧ e ≤ 2000 - 1000) ∧
      (0 : Int) ≤ 2000 ∧ (2000 : Int) ≤ 2500 ∧ (2500 : Int) < 2000 + 1000) ∧
    ((checkRateLimit ⟨[]⟩ 2000 = (⟨[2000]⟩, ⟨true, 0, 0⟩)) ∧
      (checkRateLimit ⟨[2000]⟩ 2500 = (⟨[2000]⟩, ⟨false, 0, 1000 - (2500 - 2000)⟩)) ∧
      (0 ≤ 1000 - (2500 - 2000 : Int)) ∧ (1000 - (2500 - 2000 : Int) ≤ 1000)) :=
  ⟨⟨by simp, by norm_num, by norm_num, by norm_num⟩,
    c8_rate_limiter_capacity_and_reset ⟨[]⟩ 2000 2500 (by simp) (by norm_num)
      (by norm_num) (by norm_num)⟩

/-- C7: with no prior AI-generated message in the group, selectNextBot
returns the head of the active-bot list ordered by registration time
ascending (after removing the excluded bot), and that head registered no
later than every other fetched bot. -/
theorem c7_no_prior_ai_message_selects_earliest
    (s : Store) (gu gt ex : String) (b : Bot) (bs : List Bot)
    (hbots : activeBotsSorted s gt ex = b :: bs)
    (hnoai : findMostRecentAiMessage s gu = none) :
    selectNextBot (dbOfStore s) gu gt ex = some b.toInfo ∧
    ∀ c ∈ activeBotsSorted s gt ex, b.createdAt ≤ c.createdAt := by
  constructor
  · simp [selectNextBot, dbOfStore, hbots, hnoai, selectNextCore]
  · have hp := sorted_sortByCreatedAt (s.bots.filter
      (fun x => x.groupId == gt && x.isActive && x.id != ex))
    rw [show sortByCreatedAt (s.bots.filter
      (fun x => x.groupId == gt && x.isActive && x.id != ex)) =
        activeBotsSorted s gt ex from rfl, hbots] at hp
    rw [hbots]
    intro c hc
    rcases List.mem_cons.1 hc with hc | hc
    · exact hc ▸ le_refl _
    · exact (List.pairwise_cons.1 hp).1 c hc

/-- Witness for C7: in the three-bot store with no messages, excluding
nobody, selection returns bot A (registered first). -/
theorem c7_no_prior_ai_message_selects_earliest_witness :
    (activeBotsSorted storeABC "G" "" = botA :: [botB, botC] ∧
      findMostRecentAiMessage storeABC "g" = none) ∧
    (selectNextBot (dbOfStore storeABC) "g" "G" "" = some botA.toInfo ∧
      ∀ c ∈ activeBotsSorted storeABC "G" "", botA.createdAt ≤ c.createdAt) :=
  ⟨⟨by decide, by decide⟩,
    c7_no_prior_ai_message_selects_earliest storeABC "g" "G" "" botA [botB, botC]
      (by decide) (by decide)⟩

/-- C9: a failure of either store lookup inside selectNextBot is caught and
converted to "no next bot"; the selector returns none instead of
propagating the error. -/
theorem c9_lookup_failure_yields_no_next_bot
    (db : DB) (gu gt ex : String)
    (h : (∃ e, db.findBots gt ex = .error e) ∨
      (∃ e, db.findLastAiMessage gu = .error e)) :
    selectNextBot db gu gt ex = none := by
  rcases h with ⟨e, he⟩ | ⟨e, he⟩
  · exact selectNextBot_of_findBots_error he
  · exact selectNextBot_of_lastAi_error he

/-- Witness for C9: with every lookup failing, selection yields none. -/
theorem c9_lookup_failure_yields_no_next_bot_witness :
    (∃ e, dbDown.findBots "G" "x" = .error e) ∧
    selectNextBot dbDown "g" "G" "x" = none :=
  ⟨⟨"connection refused", rfl⟩,
    c9_lookup_failure_yields_no_next_bot dbDown "g" "G" "x"
      (Or.inl ⟨"connection refused", rfl⟩)⟩

/-- C2: whenever handleWebhook enqueues a response job, the job's bot is
exactly the bot whose webhook token received the update (which equals the
bot the turn selector chose); if the selected bot differs from the
receiving bot, no job is produced. -/
theorem c2_single_writer_guard
    (s : Store) (tok : String) (u : TUpdate) (now : Nat) (j : MessageJobData)
    (hj : (handleWebhook s tok u now).2 = some j) :
    ∃ b, s.bots.find? (fun x : Bot => x.token == tok) = some b ∧ j.botId = b.id := by
  have hj2 : handleWebhookJob s tok u now = some j := hj
  unfold handleWebhookJob at hj2
  cases hctx : webhookCtx s.bots s.groups tok u with
  | none => rw [hctx] at hj2; exact Option.noConfusion hj2
  | some ctx =>
    rw [hctx] at hj2
    simp only at hj2
    refine ⟨ctx.bot, webhookCtx_finds_bot hctx, ?_⟩
    split at hj2
    · split at hj2
      · exact Option.noConfusion hj2
      · split at hj2
        · rename_i nb hsel hguard
          injection hj2 with hj3
          subst hj3
          simp only [Bool.and_eq_true, beq_iff_eq] at hguard
          exact hguard.2
        · exact Option.noConfusion hj2
    · exact Option.noConfusion hj2

/-- Witness for C2: a human message in the three-bot group arriving at bot
A's webhook enqueues a job, and that job's bot is A itself. -/
theorem c2_single_writer_guard_witness :
    (handleWebhook storeABC "ta" updateHuman 5).2 =
      some ⟨"ta", "A", "g", "G", "a", "pa", none⟩ ∧
    ∃ b, storeABC.bots.find? (fun x : Bot => x.token == "ta") = some b ∧
      (⟨"ta", "A", "g", "G", "a", "pa", none⟩ : MessageJobData).botId = b.id :=
  ⟨by decide,
    c2_single_writer_guard storeABC "ta" updateHuman 5
      ⟨"ta", "A", "g", "G", "a", "pa", none⟩ (by decide)⟩

/-- C3: handleWebhook deduplicates inbound messages on the
(groupId, platform message id) pair: processing the same update a second
time stores nothing new, and one processing preserves the invariant that at
most one Message row carries any given pair. -/
theorem c3_message_dedup (s : Store) (tok : String) (u : TUpdate) (now now2 : Nat) :
    ((handleWebhook (handleWebhook s tok u now).1 tok u now2).1.messages =
      (handleWebhook s tok u now).1.messages) ∧
    ∀ gid mid, countPair s gid mid ≤ 1 →
      countPair (handleWebhook s tok u now).1 gid mid ≤ 1 := by
  constructor
  · exact congrArg Store.messages (handleWebhookStore_idem s tok u now now2)
  · intro gid mid h
    show countPair (handleWebhookStore s tok u now) gid mid ≤ 1
    cases hctx : webhookCtx s.bots s.groups tok u with
    | none => rw [hwStore_none hctx now]; exact h
    | some ctx => rw [hwStore_some hctx now]; exact countPair_dedupInsert _ _ _ _ h

/-- Witness for C3 at a concrete input: the pair invariant before and after
processing the human update. -/
theorem c3_message_dedup_witness :
    countPair storeABC "g" 7 ≤ 1 ∧
    ((handleWebhook (handleWebhook storeABC "ta" updateHuman 5).1 "ta" updateHuman 6).1.messages =
      (handleWebhook storeABC "ta" updateHuman 5).1.messages) ∧
    countPair (handleWebhook storeABC "ta" updateHuman 5).1 "g" 7 ≤ 1 :=
  ⟨by decide,
    (c3_message_dedup storeABC "ta" updateHuman 5 6).1,
    (c3_message_dedup storeABC "ta" updateHuman 5 6).2 "g" 7 (by decide)⟩

/-- C4 counterexample: a delivery whose send and persist both succeeded is
marked failed when the chained enqueue fails — the failure is re-raised,
not swallowed, contradicting the claim for the enqueue chain step. -/
theorem c4_counterexample_enqueue_failure_fails_delivered_job :
    envEnqFail.sendTransport = .ok 42 ∧ envEnqFail.insertOk = .ok () ∧
    processMessage envEnqFail jdA = .error "enqueue down" :=
  ⟨rfl, rfl, rfl⟩

/-- C4 (amended): after a successful send and persist, a failure of the
chained turn-selection lookups is swallowed (the selector catches it and
yields no next bot, so the delivery completes without error), but a failure
of the chained enqueue propagates and fails the already-delivered job. -/
theorem c4_amended_selector_swallowed_enqueue_raised
    (env : ProcEnv) (jd : MessageJobData) (rows : List FetchedMsg) (txt : String) (mid : Nat)
    (hfetch : env.recentFetch = .ok rows)
    (hgen : env.generate (buildHistory rows) = .ok txt)
    (hsend : env.sendTransport = .ok mid)
    (hins : env.insertOk = .ok ()) :
    ((∃ e, env.db.findBots jd.groupTelegramId jd.botId = .error e) →
      processMessage env jd = .ok ⟨some mid, true, true, none⟩) ∧
    (∀ nb e2, selectNextBot env.db jd.groupId jd.groupTelegramId jd.botId = some nb →
      env.enqueueOk = .error e2 → processMessage env jd = .error e2) := by
  have hsendm : sendMessage env.sendTransport = some mid := by rw [hsend]; rfl
  constructor
  · rintro ⟨e, he⟩
    have hsel : selectNextBot env.db jd.groupId jd.groupTelegramId jd.botId = none :=
      selectNextBot_of_findBots_error he
    simp only [processMessage, hfetch, hgen, hsendm, hins, hsel]
  · intro nb e2 hsel henq
    simp only [processMessage, hfetch, hgen, hsendm, hins, hsel, henq]

/-- Witness for the amended C4: send and persist succeed while the selector
lookups fail; the delivery still completes. -/
theorem c4_amended_selector_swallowed_enqueue_raised_witness :
    (envDbFail.recentFetch = .ok [] ∧
      envDbFail.generate (buildHistory []) = .ok "sure" ∧
      envDbFail.sendTransport = .ok 42 ∧ envDbFail.insertOk = .ok ()) ∧
    (((∃ e, envDbFail.db.findBots jdA.groupTelegramId jdA.botId = .error e) →
        processMessage envDbFail jdA = .ok ⟨some 42, true, true, none⟩) ∧
      (∀ nb e2,
        selectNextBot envDbFail.db jdA.groupId jdA.groupTelegramId jdA.botId = some nb →
        envDbFail.enqueueOk = .error e2 → processMessage envDbFail jdA = .error e2)) :=
  ⟨⟨rfl, rfl, rfl, rfl⟩,
    c4_amended_selector_swallowed_enqueue_raised envDbFail jdA [] "sure" 42
      rfl rfl rfl rfl⟩

/-- C5 counterexample: when the platform send fails, no error leaves the
delivery handler — sendMessage catches the failure and returns null, and
the job completes as a success, so the queue retry policy never sees it. -/
theorem c5_counterexample_send_failure_not_retried :
    envSendFail.sendTransport = .error "network down" ∧
    processMessage envSendFail jdA = .ok ⟨none, false, false, none⟩ :=
  ⟨rfl, rfl⟩

/-- C5 (amended): a platform send failure is caught inside sendMessage and
surfaces as a missing message id, after which the delivery completes
without error (no retry); errors of steps before the send — here the AI
generation — do propagate, and every job carries the retry configuration
maxAttempts = 3 with exponential backoff at base 1000 ms. -/
theorem c5_amended_send_failure_swallowed_pre_send_errors_retried
    (env : ProcEnv) (jd : MessageJobData) (rows : List FetchedMsg) (e : String)
    (hfetch : env.recentFetch = .ok rows)
    (hsend : env.sendTransport = .error e) :
    ((∃ txt, env.generate (buildHistory rows) = .ok txt) →
      processMessage env jd = .ok ⟨none, false, false, none⟩) ∧
    (∀ e2, env.generate (buildHistory rows) = .error e2 →
      processMessage env jd = .error e2) ∧
    addToQueueOptions.attempts = 3 ∧
    addToQueueOptions.backoff = .exponential 1000 := by
  have hsendm : sendMessage env.sendTransport = none := by rw [hsend]; rfl
  refine ⟨?_, ?_, rfl, rfl⟩
  · rintro ⟨txt, hgen⟩
    simp only [processMessage, hfetch, hgen, hsendm]
  · intro e2 hgen
    simp only [processMessage, hfetch, hgen]

/-- Witness for the amended C5: a delivery whose transport fails. -/
theorem c5_amended_send_failure_swallowed_witness :
    (envSendFail.recentFetch = .ok [] ∧
      envSendFail.sendTransport = .error "network down") ∧
    (((∃ txt, envSendFail.generate (buildHistory []) = .ok txt) →
        processMessage envSendFail jdA = .ok ⟨none, false, false, none⟩) ∧
      (∀ e2, envSendFail.generate (buildHistory []) = .error e2 →
        processMessage envSendFail jdA = .error e2) ∧
      addToQueueOptions.attempts = 3 ∧
      addToQueueOptions.backoff = .exponential 1000) :=
  ⟨⟨rfl, rfl⟩,
    c5_amended_send_failure_swallowed_pre_send_errors_retried envSendFail jdA []
      "network down" rfl rfl⟩

/-- C6 counterexample: the chained continuation job drawn at 0 gets a delay
of 500 ms — the same single window as a first response, not a distinct
multi-second window — and the window itself can exceed one second
(draw 999 gives 1499 ms), so neither origin has its own fixed window. -/
theorem c6_counterexample_chained_delay_sub_second :
    processMessage envChainOk jdA = .ok ⟨some 42, true, true, some (botB.toInfo, 500)⟩ ∧
    addToQueueDelay 0 = 500 ∧ ¬ 2000 ≤ addToQueueDelay 0 ∧
    addToQueueDelay 999 = 1499 ∧ ¬ addToQueueDelay 999 < 1000 :=
  ⟨rfl, rfl, by decide, rfl, by decide⟩

/-- C6 (amended): every job of the relay queue draws its delay from the one
window 500–1499 ms (`floor(random * 1000) + 500`) independently of origin:
the chained job enqueued by processMessage uses exactly this formula, as
does a first response; the other queue variant in the repository uses the
single origin-independent window 3000–4999 ms. -/
theorem c6_amended_single_delay_window_regardless_of_origin
    (env : ProcEnv) (jd : MessageJobData) (rows : List FetchedMsg) (txt : String)
    (mid : Nat) (nb : BotInfo)
    (hfetch : env.recentFetch = .ok rows)
    (hgen : env.generate (buildHistory rows) = .ok txt)
    (hsend : env.sendTransport = .ok mid)
    (hins : env.insertOk = .ok ())
    (hsel : selectNextBot env.db jd.groupId jd.groupTelegramId jd.botId = some nb)
    (henq : env.enqueueOk = .ok ()) :
    processMessage env jd =
      .ok ⟨some mid, true, true, some (nb, env.chainDraw.val + 500)⟩ ∧
    (∀ d : Fin 1000, 500 ≤ addToQueueDelay d ∧ addToQueueDelay d ≤ 1499) ∧
    (∀ d : Fin 2000, 3000 ≤ addToQueueDelayLegacy d ∧ addToQueueDelayLegacy d ≤ 4999) := by
  have hsendm : sendMessage env.sendTransport = some mid := by rw [hsend]; rfl
  refine ⟨?_, ?_, ?_⟩
  · simp only [processMessage, hfetch, hgen, hsendm, hins, hsel, henq, addToQueueDelay]
  · intro d
    have hd := d.isLt
    unfold addToQueueDelay
    omega
  · intro d
    have hd := d.isLt
    unfold addToQueueDelayLegacy
    omega

/-- Witness for the amended C6: the all-success delivery with draw 0. -/
theorem c6_amended_single_delay_window_witness :
    (envChainOk.recentFetch = .ok [] ∧
      envChainOk.generate (buildHistory []) = .ok "sure" ∧
      envChainOk.sendTransport = .ok 42 ∧ envChainOk.insertOk = .ok () ∧
      selectNextBot envChainOk.db jdA.groupId jdA.groupTelegramId jdA.botId =
        some botB.toInfo ∧
      envChainOk.enqueueOk = .ok ()) ∧
    (processMessage envChainOk jdA =
        .ok ⟨some 42, true, true, some (botB.toInfo, envChainOk.chainDraw.val + 500)⟩ ∧
      (∀ d : Fin 1000, 500 ≤ addToQueueDelay d ∧ addToQueueDelay d ≤ 1499) ∧
      (∀ d : Fin 2000, 3000 ≤ addToQueueDelayLegacy d ∧ addToQueueDelayLegacy d ≤ 4999)) :=
  ⟨⟨rfl, rfl, rfl, rfl, rfl, rfl⟩,
    c6_amended_single_delay_window_regardless_of_origin envChainOk jdA [] "sure" 42
      botB.toInfo rfl rfl rfl rfl rfl rfl⟩

/-- C10: when the platform send yields no message id, the delivery persists
nothing, never runs the chained turn selection, enqueues nothing, and
completes without error. -/
theorem c10_failed_send_completes_without_effects
    (env : ProcEnv) (jd : MessageJobData) (rows : List FetchedMsg) (txt : String)
    (hfetch : env.recentFetch = .ok rows)
    (hgen : env.generate (buildHistory rows) = .ok txt)
    (hsend : sendMessage env.sendTransport = none) :
    processMessage env jd = .ok ⟨none, false, false, none⟩ := by
  simp only [processMessage, hfetch, hgen, hsend]

/-- Witness for C10: the delivery whose transport fails. -/
theorem c10_failed_send_completes_without_effects_witness :
    (envSendFail.recentFetch = .ok [] ∧
      envSendFail.generate (buildHistory []) = .ok "sure" ∧
      sendMessage envSendFail.sendTransport = none) ∧
    processMessage envSendFail jdA = .ok ⟨none, false, false, none⟩ :=
  ⟨⟨rfl, rfl, rfl⟩,
    c10_failed_send_completes_without_effects envSendFail jdA [] "sure" rfl rfl rfl⟩

/-- C1: evaluation at the failing input. With three active bots A, B, C the
chained selection (each step excluding the bot that just spoke) yields
B, A, B, A, B, A — bot C is never selected, so chaining does not visit
every active bot in rotation order: because the previous speaker is
excluded from the fetched list, the last AI author is never found there and
the index always defaults to 0. -/
theorem c1_chain_never_reaches_third_bot :
    chainSpeakers "g" "G" 6 storeABC "A" 10 = ["B", "A", "B", "A", "B", "A"] ∧
    "C" ∉ chainSpeakers "g" "G" 6 storeABC "A" 10 := by
  constructor
  · decide
  · decide

end Botai
